import Mathlib

/-!
Shallow embedding of the aag25_mcp tool-registry / bridge-dispatch code:

* `tool_registry.py` — the `@bridge_handler` wrapper (error-to-dict
  translation), the registration events fired by the decorators, and
  `discover_tools` / `get_bridge_handlers`;
* `rhino_bridge_server.py` — `RhinoBridgeHandler.do_POST` and `do_GET`
  request dispatch;
* `bridge_client.py` — `call_bridge_api` and the `list_eml_parameters`
  tool from `gh_tools.py`.

Python dictionaries are modelled as insertion-ordered association lists,
Python exceptions as an explicit `Except` result, and the HTTP requests a
function performs as an explicit trace.
-/

set_option autoImplicit false

namespace AagMcp

/-- JSON-serialisable Python values as they flow through the bridge:
`None`, `bool`, `int`, `str`, `list`, `dict` (insertion-ordered). -/
inductive PyVal where
  | pyNone
  | pyBool (b : Bool)
  | pyInt (n : Int)
  | pyStr (s : String)
  | pyList (xs : List PyVal)
  | pyDict (entries : List (String × PyVal))

/-- Lookup of the value stored under a key in a Python dict
(association list, first match — keys of a Python dict are unique). -/
def alistFind {κ α : Type} [DecidableEq κ] : List (κ × α) → κ → Option α
  | [], _ => none
  | (k, v) :: es, key => if k = key then some v else alistFind es key

/-- Python `d[key] = value`: overwrite in place when the key is present,
otherwise append at the end (insertion order). -/
def alistSet {κ α : Type} [DecidableEq κ] : List (κ × α) → κ → α → List (κ × α)
  | [], key, v => [(key, v)]
  | (k, w) :: es, key, v =>
      if k = key then (k, v) :: es else (k, w) :: alistSet es key v

/-- Python `key in d`. -/
def alistHasKey {κ α : Type} [DecidableEq κ] (es : List (κ × α)) (k : κ) : Bool :=
  (alistFind es k).isSome

/-- Whether a Python value is a dict (`isinstance(result, dict)`). -/
def isDict : PyVal → Bool
  | PyVal.pyDict _ => true
  | _ => false

/-- Lookup in a Python value that is a dict; `none` on non-dicts. -/
def dictLookup : PyVal → String → Option PyVal
  | PyVal.pyDict entries, k => alistFind entries k
  | _, _ => none

/-- Whether a Python value is a dict containing the given key. -/
def dictHasKey (v : PyVal) (k : String) : Bool :=
  (dictLookup v k).isSome

/-- `type(v).__name__` for the embedded values. -/
def pyTypeName : PyVal → String
  | PyVal.pyNone => "NoneType"
  | PyVal.pyBool _ => "bool"
  | PyVal.pyInt _ => "int"
  | PyVal.pyStr _ => "str"
  | PyVal.pyList _ => "list"
  | PyVal.pyDict _ => "dict"

/-- The single-quote character, written by code point so that string
literals below can spell Python messages that quote words. -/
def sq : String := (Char.ofNat 39).toString

/-- `str(type(v))`, e.g. `<class 'int'>`. -/
def pyTypeStr (v : PyVal) : String :=
  "<class " ++ sq ++ pyTypeName v ++ sq ++ ">"

/-- A raised Python exception as observed by the handlers:
`excType` is `type(e).__name__`, `excMsg` is `str(e)`, and
`excTraceback` is the string produced by `traceback.format_exc()`. -/
structure PyExc where
  excType : String
  excMsg : String
  excTraceback : String

/-- Python `needle in haystack` on strings, via `str.split`. -/
def strContains (haystack needle : String) : Bool :=
  (haystack.splitOn needle).length != 1

/-- `tool_registry.bridge_handler.wrapper`: scan of the traceback lines for
the first `File ... .py` line inside the Tools directory
(`file_line_info`), defaulting to `Unknown`. -/
def fileLineInfo (toolsDir tb : String) : String :=
  match (tb.splitOn "\n").find? (fun line =>
      strContains line "File" && strContains line ".py" &&
        (strContains line "Tools" || strContains line toolsDir)) with
  | some line => line.trim
  | none => "Unknown"

/-- Python `lst[-10:]` (`traceback_lines`). -/
def lastTen (xs : List String) : List String :=
  xs.drop (xs.length - 10)

/-- The `wrapper` closure built by `tool_registry.bridge_handler(endpoint)`
around a handler `func`.  The underlying handler takes the request data and
either returns a value or raises; the wrapper catches every exception and
always returns a dict.  `toolsDir` stands for `os.path.dirname(__file__)`
and `pythonVersion` for `sys.version`. -/
def bridge_handler_wrapper (toolsDir pythonVersion endpoint funcName : String)
    (func : PyVal → Except PyExc PyVal) (data : PyVal) : PyVal :=
  match func data with
  | Except.ok result =>
      match result with
      | PyVal.pyDict entries =>
          if alistHasKey entries "success" then PyVal.pyDict entries
          else PyVal.pyDict (alistSet entries "success" (PyVal.pyBool true))
      | other =>
          PyVal.pyDict
            [ ("success", PyVal.pyBool false),
              ("error", PyVal.pyStr ("Handler " ++ funcName ++
                " returned non-dict type: " ++ pyTypeName other)),
              ("error_type", PyVal.pyStr "InvalidReturnType"),
              ("endpoint", PyVal.pyStr endpoint),
              ("handler_function", PyVal.pyStr funcName),
              ("returned_type", PyVal.pyStr (pyTypeStr other)),
              ("debug_hint", PyVal.pyStr ("Bridge handlers must return a dictionary with at least a " ++ sq ++ "success" ++ sq ++ " key")) ]
  | Except.error e =>
      PyVal.pyDict
        [ ("success", PyVal.pyBool false),
          ("error", PyVal.pyStr (e.excType ++ ": " ++ e.excMsg)),
          ("error_type", PyVal.pyStr e.excType),
          ("error_message", PyVal.pyStr e.excMsg),
          ("endpoint", PyVal.pyStr endpoint),
          ("handler_function", PyVal.pyStr funcName),
          ("file_line", PyVal.pyStr (fileLineInfo toolsDir e.excTraceback)),
          ("traceback", PyVal.pyStr e.excTraceback),
          ("traceback_lines", PyVal.pyList
            ((lastTen (e.excTraceback.splitOn "\n")).map PyVal.pyStr)),
          ("request_data", data),
          ("python_version", PyVal.pyStr pythonVersion),
          ("debug_hint", PyVal.pyStr ("An exception occurred in the bridge handler. See " ++ sq ++ "traceback" ++ sq ++ " field for full details and check Rhino Python console.")) ]

/-- A handler as stored in `_dynamic_handlers`: a synchronous Python
function of the parsed request body that may raise. -/
def HandlerFn : Type := PyVal → Except PyExc PyVal

/-- A bridge handler registered by `@bridge_handler` is the wrapper, which
never raises. -/
def bridge_handler (toolsDir pythonVersion endpoint funcName : String)
    (func : PyVal → Except PyExc PyVal) : HandlerFn :=
  fun data =>
    Except.ok (bridge_handler_wrapper toolsDir pythonVersion endpoint funcName func data)

/-- An HTTP response as produced by `send_json_response`: the status code
and the value serialised as the JSON body. -/
structure HttpResponse where
  statusCode : Nat
  body : PyVal

/-- Result of running a request handler method: the response written, plus
the trace of dynamic-handler invocations `(endpoint, request_data)` it
performed. -/
structure DispatchResult where
  response : HttpResponse
  handlerCalls : List (String × PyVal)

/-- `urllib.parse.urlparse(self.path).path` for an origin-form request
target: the part of the path before any query or fragment. -/
def urlparsePath (s : String) : String :=
  String.mk (s.data.takeWhile (fun ch => ch ≠ '?' && ch ≠ '#'))

/-- Insert into a `<`-sorted list of strings, keeping order. -/
def insertStr (x : String) : List String → List String
  | [] => [x]
  | y :: ys => if x < y then x :: y :: ys else y :: insertStr x ys

/-- Python `sorted` on a list of strings (insertion sort). -/
def pySorted : List String → List String
  | [] => []
  | x :: xs => insertStr x (pySorted xs)

/-- `do_POST`: the 400 response body for a request whose body is not valid
JSON (`msg` is `str(e)` of the `json.JSONDecodeError`). -/
def jsonDecodeErrorBody (endpoint msg : String) : PyVal :=
  PyVal.pyDict
    [ ("success", PyVal.pyBool false),
      ("error", PyVal.pyStr "Invalid JSON in request body"),
      ("error_type", PyVal.pyStr "JSONDecodeError"),
      ("error_details", PyVal.pyStr msg),
      ("endpoint", PyVal.pyStr endpoint),
      ("debug_hint", PyVal.pyStr "The request body is not valid JSON. Check the request formatting.") ]

/-- `do_POST`: the 500 response body when the looked-up dynamic handler
itself raises. -/
def handlerErrorBody (endpoint : String) (e : PyExc) (requestData : PyVal) : PyVal :=
  PyVal.pyDict
    [ ("success", PyVal.pyBool false),
      ("error", PyVal.pyStr ("Handler error: " ++ e.excMsg)),
      ("error_type", PyVal.pyStr e.excType),
      ("endpoint", PyVal.pyStr endpoint),
      ("traceback", PyVal.pyStr e.excTraceback),
      ("request_data", requestData),
      ("debug_hint", PyVal.pyStr "An exception occurred in the Rhino bridge handler. Check the Rhino Python console for full traceback.") ]

/-- `do_POST`: the 404 response body for an unregistered endpoint, listing
the sorted registered endpoints. -/
def endpointNotFoundBody (endpoint : String) (registered : List String) : PyVal :=
  PyVal.pyDict
    [ ("success", PyVal.pyBool false),
      ("error", PyVal.pyStr ("Unknown endpoint: " ++ endpoint)),
      ("error_type", PyVal.pyStr "EndpointNotFound"),
      ("endpoint", PyVal.pyStr endpoint),
      ("available_endpoints", PyVal.pyList ((pySorted registered).map PyVal.pyStr)),
      ("debug_hint", PyVal.pyStr ("The endpoint " ++ sq ++ endpoint ++ sq ++ " is not registered. Check if the handler is properly decorated with @bridge_handler.")) ]

/-- `RhinoBridgeHandler.do_POST`.  Inputs: the `_dynamic_handlers`
registry (an insertion-ordered dict), the raw request path, the
`Content-Length` header, and the result of `json.loads` on the request
body bytes (`Except.error` holding `str(e)` when the body is not valid
JSON).  When `Content-Length` is `0` the body is never read and the
request data is the empty dict.  A registered handler is called once with
the request data; its return value is sent with status 200, an exception
it raises is sent as the 500 handler-error body; an unregistered endpoint
gets the 404 body. -/
def do_POST (handlers : List (String × HandlerFn)) (rawPath : String)
    (contentLength : Nat) (parsedBody : Except String PyVal) : DispatchResult :=
  let endpoint := urlparsePath rawPath
  match (if contentLength > 0 then parsedBody else Except.ok (PyVal.pyDict [])) with
  | Except.error msg =>
      { response := { statusCode := 400, body := jsonDecodeErrorBody endpoint msg },
        handlerCalls := [] }
  | Except.ok requestData =>
      match alistFind handlers endpoint with
      | some handlerFunc =>
          match handlerFunc requestData with
          | Except.ok result =>
              { response := { statusCode := 200, body := result },
                handlerCalls := [(endpoint, requestData)] }
          | Except.error e =>
              { response := { statusCode := 500,
                              body := handlerErrorBody endpoint e requestData },
                handlerCalls := [(endpoint, requestData)] }
      | none =>
          { response := { statusCode := 404,
                          body := endpointNotFoundBody endpoint (handlers.map Prod.fst) },
            handlerCalls := [] }

/-- `send_status_response`: the `/status` body. -/
def statusBody (rhinoAvailable grasshopperAvailable : Bool) : PyVal :=
  PyVal.pyDict
    [ ("status", PyVal.pyStr "running"),
      ("rhino_available", PyVal.pyBool rhinoAvailable),
      ("grasshopper_available", PyVal.pyBool grasshopperAvailable),
      ("message", PyVal.pyStr "Rhino Bridge Server is running") ]

/-- `send_info_response`: the `/info` body, listing the two static GET
endpoints followed by the sorted dynamic POST endpoints. -/
def infoBody (handlers : List (String × HandlerFn)) : PyVal :=
  PyVal.pyDict
    [ ("name", PyVal.pyStr "Rhino HTTP Bridge Server"),
      ("version", PyVal.pyStr "2.0.0"),
      ("author", PyVal.pyStr "Hossein Zargar"),
      ("endpoints", PyVal.pyList
        ([ PyVal.pyDict [("path", PyVal.pyStr "/status"), ("method", PyVal.pyStr "GET"),
             ("description", PyVal.pyStr "Server status")],
           PyVal.pyDict [("path", PyVal.pyStr "/info"), ("method", PyVal.pyStr "GET"),
             ("description", PyVal.pyStr "Server information")] ] ++
         (pySorted (handlers.map Prod.fst)).map (fun endpoint =>
           PyVal.pyDict [("path", PyVal.pyStr endpoint), ("method", PyVal.pyStr "POST"),
             ("description", PyVal.pyStr ("Dynamic handler for " ++ endpoint))]))),
      ("dynamic_handlers", PyVal.pyInt (handlers.length : Int)) ]

/-- `send_error_response`: body of a plain error reply. -/
def plainErrorBody (statusCode : Nat) (message : String) : PyVal :=
  PyVal.pyDict
    [ ("success", PyVal.pyBool false),
      ("error", PyVal.pyStr message),
      ("status_code", PyVal.pyInt (statusCode : Int)) ]

/-- `RhinoBridgeHandler.do_GET`: `/status` and `/info` are answered with
content (comparing the raw path, no URL parsing); every other path gets a
404 error response.  No dynamic handler is ever invoked. -/
def do_GET (handlers : List (String × HandlerFn))
    (rhinoAvailable grasshopperAvailable : Bool) (path : String) : DispatchResult :=
  if path = "/status" then
    { response := { statusCode := 200, body := statusBody rhinoAvailable grasshopperAvailable },
      handlerCalls := [] }
  else if path = "/info" then
    { response := { statusCode := 200, body := infoBody handlers }, handlerCalls := [] }
  else
    { response := { statusCode := 404, body := plainErrorBody 404 "Endpoint not found" },
      handlerCalls := [] }

/-- The outcome of the one HTTP request `call_bridge_api` performs, seen
from the client: a `requests` exception raised during the request
(connection error, timeout, other `RequestException`), or a received
response with its status code, text, `content-type` header (when present)
and the result of `response.json()` (`Except.error` a decode error). -/
structure JsonDecodeErr where
  jstr : String
  jline : Int
  jcol : Int

inductive HttpOutcome where
  | connectionError (msg : String)
  | timeoutError (msg : String)
  | requestError (msg : String)
  | gotResponse (statusCode : Nat) (text : String) (contentType : Option String)
      (jsonParse : Except JsonDecodeErr PyVal)

/-- An HTTP request issued by the client, with the JSON body for a POST. -/
inductive HttpRequest where
  | getReq (url : String)
  | postReq (url : String) (jsonBody : PyVal)

/-- What a call to `call_bridge_api` produces: its Python return value and
the trace of HTTP requests it issued. -/
structure CallResult where
  returnValue : PyVal
  requests : List HttpRequest

/-- Python `s[:n]`. -/
def pyTake (n : Nat) (s : String) : String :=
  String.mk (s.data.take n)

/-- `data if data is not None else None`, as placed in the error dicts
under `request_data`. -/
def requestDataVal : Option PyVal → PyVal
  | none => PyVal.pyNone
  | some d => d

/-- `bridge_client.call_bridge_api(endpoint, data)`.  `bridgeURL` stands
for the module-level `BRIDGE_URL`.  A GET is issued when `data is None`,
otherwise a single JSON POST of `data`; `raise_for_status` turns a 4xx/5xx
status into the `HTTPError` branch; a body that fails `response.json()`
lands in the `JSONDecodeError` branch; every failure is translated into an
error dict and on success the parsed JSON is returned unchanged. -/
def call_bridge_api (bridgeURL endpoint : String) (data : Option PyVal)
    (outcome : HttpOutcome) : CallResult :=
  let url := bridgeURL ++ endpoint
  let req := match data with
    | none => HttpRequest.getReq url
    | some d => HttpRequest.postReq url d
  match outcome with
  | HttpOutcome.connectionError _ =>
      { returnValue := PyVal.pyDict
          [ ("success", PyVal.pyBool false),
            ("error", PyVal.pyStr ("Cannot connect to Rhino Bridge Server at " ++
              bridgeURL ++ ". Make sure the bridge server is running in Rhino.")),
            ("error_type", PyVal.pyStr "ConnectionError"),
            ("endpoint", PyVal.pyStr endpoint),
            ("bridge_url", PyVal.pyStr bridgeURL) ],
        requests := [req] }
  | HttpOutcome.timeoutError _ =>
      { returnValue := PyVal.pyDict
          [ ("success", PyVal.pyBool false),
            ("error", PyVal.pyStr "Request to Rhino Bridge Server timed out after 10 seconds"),
            ("error_type", PyVal.pyStr "Timeout"),
            ("endpoint", PyVal.pyStr endpoint),
            ("request_data", requestDataVal data) ],
        requests := [req] }
  | HttpOutcome.requestError msg =>
      { returnValue := PyVal.pyDict
          [ ("success", PyVal.pyBool false),
            ("error", PyVal.pyStr ("Bridge API request failed: " ++ msg)),
            ("error_type", PyVal.pyStr "RequestException"),
            ("endpoint", PyVal.pyStr endpoint),
            ("response_body", PyVal.pyStr "No response"),
            ("request_data", requestDataVal data) ],
        requests := [req] }
  | HttpOutcome.gotResponse status text contentType jsonParse =>
      if 400 ≤ status ∧ status < 600 then
        { returnValue := PyVal.pyDict
            [ ("success", PyVal.pyBool false),
              ("error", PyVal.pyStr ("HTTP " ++ toString status ++ " error from bridge server")),
              ("error_type", PyVal.pyStr "HTTPError"),
              ("status_code", PyVal.pyInt (status : Int)),
              ("endpoint", PyVal.pyStr endpoint),
              ("response_body", PyVal.pyStr (pyTake 1000 text)),
              ("request_data", requestDataVal data) ],
          requests := [req] }
      else
        match jsonParse with
        | Except.ok v => { returnValue := v, requests := [req] }
        | Except.error e =>
            { returnValue := PyVal.pyDict
                [ ("success", PyVal.pyBool false),
                  ("error", PyVal.pyStr ("Bridge API request failed: " ++ e.jstr)),
                  ("error_type", PyVal.pyStr "JSONDecodeError"),
                  ("error_details", PyVal.pyDict
                    [ ("message", PyVal.pyStr e.jstr),
                      ("line", PyVal.pyInt e.jline),
                      ("column", PyVal.pyInt e.jcol) ]),
                  ("endpoint", PyVal.pyStr endpoint),
                  ("request_data", requestDataVal data),
                  ("response_status", PyVal.pyInt (status : Int)),
                  ("response_body", PyVal.pyStr (pyTake 1000 text)),
                  ("response_content_type", PyVal.pyStr (contentType.getD "unknown")),
                  ("debug_hint", PyVal.pyStr ("The bridge server returned a non-JSON response. This may indicate a Python error in the handler or the endpoint doesn" ++ sq ++ "t exist.")) ],
              requests := [req] }

/-- `gh_tools.list_eml_parameters`: forwards to the bridge as a JSON POST
of the empty dict. -/
def list_eml_parameters (bridgeURL : String) (outcome : HttpOutcome) : CallResult :=
  call_bridge_api bridgeURL "/list_eml_parameters" (some (PyVal.pyDict [])) outcome

/-- A registered tool (`tool_registry.ToolDefinition`); `funcRef` stands
for the identity of the decorated Python function object. -/
structure ToolDefinition where
  name : String
  description : String
  funcRef : Nat
  toolType : String
deriving DecidableEq

/-- A registration event fired by one of the four decorators while a tool
module is being imported (`funcRef` likewise names the wrapper object for
a bridge handler). -/
inductive RegEvent where
  | regRhino (td : ToolDefinition)
  | regGh (td : ToolDefinition)
  | regCustom (td : ToolDefinition)
  | regBridge (endpoint : String) (funcRef : Nat)
deriving DecidableEq

/-- The four module-level registries of `tool_registry.py`. -/
structure Registry where
  rhinoTools : List ToolDefinition
  ghTools : List ToolDefinition
  customTools : List ToolDefinition
  bridgeHandlers : List (String × Nat)
deriving DecidableEq

/-- The state after the four `.clear()` calls. -/
def emptyRegistry : Registry :=
  { rhinoTools := [], ghTools := [], customTools := [], bridgeHandlers := [] }

/-- Effect of one decorator registration on the registries: the three tool
decorators append to their list, `bridge_handler` assigns
`_bridge_handlers[endpoint] = wrapper`. -/
def applyEvent (r : Registry) : RegEvent → Registry
  | RegEvent.regRhino td => { r with rhinoTools := r.rhinoTools ++ [td] }
  | RegEvent.regGh td => { r with ghTools := r.ghTools ++ [td] }
  | RegEvent.regCustom td => { r with customTools := r.customTools ++ [td] }
  | RegEvent.regBridge endpoint f =>
      { r with bridgeHandlers := alistSet r.bridgeHandlers endpoint f }

/-- A tool module as seen by discovery: the registration events its
decorators execute during import (or reload), in order, and whether that
completed without raising.  When an import raises, the events that
already ran keep their effect; `discover_tools` prints a warning and moves
on to the next module. -/
structure ToolModule where
  events : List RegEvent
  importOk : Bool

/-- Importing (or reloading) one module: run its registration events. -/
def importModule (r : Registry) (m : ToolModule) : Registry :=
  m.events.foldl applyEvent r

/-- Python `s.endswith(suffix)`. -/
def pyEndsWith (s suffix : String) : Bool :=
  suffix.data.isSuffixOf s.data

/-- The files `discover_tools` selects from the directory listing. -/
def discoveredFiles (listing : List String) : List String :=
  listing.filter (fun f =>
    pyEndsWith f ".py" && f ≠ "__init__.py" && f ≠ "tool_registry.py")

/-- `filename[:-3]` (drop the trailing `.py`). -/
def moduleName (filename : String) : String :=
  String.mk (filename.data.take (filename.data.length - 3))

/-- `tool_registry.discover_tools`.  Inputs: the Tools directory listing
(`os.listdir`) and, for each module name, the module's import behaviour.
It clears the four registries, imports every selected file in listing
order, and returns the final registries together with the result dict
keyed by tool kind. -/
def discover_tools (listing : List String) (mods : String → ToolModule)
    (reg : Registry) : Registry × List (String × List ToolDefinition) :=
  let reg := emptyRegistry
  let reg := (discoveredFiles listing).foldl
    (fun acc f => importModule acc (mods (moduleName f))) reg
  (reg,
    [ ("rhino", reg.rhinoTools),
      ("grasshopper", reg.ghTools),
      ("custom", reg.customTools) ])

/-- All the registration events one `discover_tools` call triggers, in the
order the modules are imported. -/
def eventsOf (listing : List String) (mods : String → ToolModule) : List RegEvent :=
  (discoveredFiles listing).foldr (fun f acc => (mods (moduleName f)).events ++ acc) []

/-- A heap of Python dict objects mapping endpoints to handler objects
(handler objects named by `Nat` refs), used to model aliasing: `store`
maps a dict reference to its contents, fresh references come from
`nextRef`. -/
structure DictHeap where
  store : List (Nat × List (String × Nat))
  nextRef : Nat

/-- Reading a dict object (missing references read as empty). -/
def readRef (h : DictHeap) (r : Nat) : List (String × Nat) :=
  (alistFind h.store r).getD []

/-- Allocating a fresh dict object holding `v`. -/
def allocRef (h : DictHeap) (v : List (String × Nat)) : Nat × DictHeap :=
  (h.nextRef, { store := (h.nextRef, v) :: h.store, nextRef := h.nextRef + 1 })

/-- Mutating an existing dict object in place (covers adding, removing and
replacing entries, by writing any new contents). -/
def writeRef (h : DictHeap) (r : Nat) (v : List (String × Nat)) : DictHeap :=
  { h with store := alistSet h.store r v }

/-- `tool_registry.get_bridge_handlers`: returns `_bridge_handlers.copy()`,
a fresh dict object with the same entries as the internal registry dict
(`internalRef`). -/
def get_bridge_handlers (internalRef : Nat) (h : DictHeap) : Nat × DictHeap :=
  allocRef h (readRef h internalRef)

/-! Helper lemmas about association-list dictionaries. -/

theorem alistFind_set_self {κ α : Type} [DecidableEq κ] (l : List (κ × α)) (k : κ) (v : α) :
    alistFind (alistSet l k v) k = some v := by
  induction l with
  | nil => simp [alistSet, alistFind]
  | cons hd tl ih =>
    obtain ⟨k', w⟩ := hd
    by_cases hk : k' = k
    · simp [alistSet, alistFind, hk]
    · simp [alistSet, alistFind, hk, ih]

theorem alistFind_set_ne {κ α : Type} [DecidableEq κ] (l : List (κ × α)) (k k' : κ) (v : α)
    (hne : k' ≠ k) : alistFind (alistSet l k v) k' = alistFind l k' := by
  have hkk : ¬ k = k' := fun h => hne (Eq.symm h)
  induction l with
  | nil => simp [alistSet, alistFind, hkk]
  | cons hd tl ih =>
    obtain ⟨k₀, w⟩ := hd
    by_cases hk : k₀ = k
    · subst hk
      simp [alistSet, alistFind, hkk]
    · simp [alistSet, alistFind, hk, ih]

/-- Shape shared by all the structured error dicts the claims inspect. -/
def errorDictShape (v : PyVal) (kind endpoint : String) : Prop :=
  dictLookup v "success" = some (PyVal.pyBool false) ∧
  (∃ s, dictLookup v "error" = some (PyVal.pyStr s)) ∧
  dictLookup v "error_type" = some (PyVal.pyStr kind) ∧
  dictLookup v "endpoint" = some (PyVal.pyStr endpoint)

/-- Claim C1: if the underlying handler raises, the `@bridge_handler`
wrapper returns normally with a dict containing `success`: false, an
`error` string, an `error_type` equal to the exception's class name, and
the registering `endpoint`. -/
theorem claim_C1 (toolsDir pythonVersion endpoint funcName : String)
    (func : PyVal → Except PyExc PyVal) (data : PyVal) (e : PyExc)
    (h : func data = Except.error e) :
    isDict (bridge_handler_wrapper toolsDir pythonVersion endpoint funcName func data) = true ∧
    dictLookup (bridge_handler_wrapper toolsDir pythonVersion endpoint funcName func data)
      "success" = some (PyVal.pyBool false) ∧
    dictLookup (bridge_handler_wrapper toolsDir pythonVersion endpoint funcName func data)
      "error" = some (PyVal.pyStr (e.excType ++ ": " ++ e.excMsg)) ∧
    dictLookup (bridge_handler_wrapper toolsDir pythonVersion endpoint funcName func data)
      "error_type" = some (PyVal.pyStr e.excType) ∧
    dictLookup (bridge_handler_wrapper toolsDir pythonVersion endpoint funcName func data)
      "endpoint" = some (PyVal.pyStr endpoint) := by
  simp [bridge_handler_wrapper, h, isDict, dictLookup, alistFind]

theorem claim_C1_witness :
    dictLookup (bridge_handler_wrapper "/Tools" "3.9" "/draw_line" "handle_draw_line"
      (fun _ => Except.error ⟨"ValueError", "bad input", "tb"⟩) (PyVal.pyDict []))
      "error_type" = some (PyVal.pyStr "ValueError") :=
  (claim_C1 "/Tools" "3.9" "/draw_line" "handle_draw_line"
    (fun _ => Except.error ⟨"ValueError", "bad input", "tb"⟩) (PyVal.pyDict [])
    ⟨"ValueError", "bad input", "tb"⟩ rfl).2.2.2.1

/-- Claim C5: every value returned by a `@bridge_handler`-wrapped handler
is a dict containing the key `success`; a non-dict return is replaced by a
`success`: false dict with `error_type` `InvalidReturnType`; a dict return
lacking `success` comes back with `success` set to true and every other
key and value unchanged. -/
theorem claim_C5 (toolsDir pythonVersion endpoint funcName : String)
    (func : PyVal → Except PyExc PyVal) (data : PyVal) :
    (isDict (bridge_handler_wrapper toolsDir pythonVersion endpoint funcName func data) = true ∧
     dictHasKey (bridge_handler_wrapper toolsDir pythonVersion endpoint funcName func data)
       "success" = true) ∧
    (∀ v, func data = Except.ok v → isDict v = false →
      dictLookup (bridge_handler_wrapper toolsDir pythonVersion endpoint funcName func data)
        "success" = some (PyVal.pyBool false) ∧
      dictLookup (bridge_handler_wrapper toolsDir pythonVersion endpoint funcName func data)
        "error_type" = some (PyVal.pyStr "InvalidReturnType")) ∧
    (∀ entries, func data = Except.ok (PyVal.pyDict entries) →
      alistHasKey entries "success" = false →
      dictLookup (bridge_handler_wrapper toolsDir pythonVersion endpoint funcName func data)
        "success" = some (PyVal.pyBool true) ∧
      ∀ k, k ≠ "success" →
        dictLookup (bridge_handler_wrapper toolsDir pythonVersion endpoint funcName func data)
          k = alistFind entries k) := by
  refine ⟨?_, ?_, ?_⟩
  · cases hf : func data with
    | error e => simp [bridge_handler_wrapper, hf, isDict, dictHasKey, dictLookup, alistFind]
    | ok v =>
      cases v with
      | pyDict entries =>
        cases hs : alistFind entries "success" with
        | some w =>
          constructor
          · simp [bridge_handler_wrapper, hf, alistHasKey, hs, isDict]
          · simp [bridge_handler_wrapper, hf, alistHasKey, hs, dictHasKey, dictLookup]
        | none =>
          constructor
          · simp [bridge_handler_wrapper, hf, alistHasKey, hs, isDict]
          · simp [bridge_handler_wrapper, hf, alistHasKey, hs, dictHasKey, dictLookup,
              alistFind_set_self]
      | pyNone => simp [bridge_handler_wrapper, hf, isDict, dictHasKey, dictLookup, alistFind]
      | pyBool b => simp [bridge_handler_wrapper, hf, isDict, dictHasKey, dictLookup, alistFind]
      | pyInt n => simp [bridge_handler_wrapper, hf, isDict, dictHasKey, dictLookup, alistFind]
      | pyStr s => simp [bridge_handler_wrapper, hf, isDict, dictHasKey, dictLookup, alistFind]
      | pyList xs => simp [bridge_handler_wrapper, hf, isDict, dictHasKey, dictLookup, alistFind]
  · intro v hf hv
    cases v with
    | pyDict entries => simp [isDict] at hv
    | pyNone => simp [bridge_handler_wrapper, hf, dictLookup, alistFind]
    | pyBool b => simp [bridge_handler_wrapper, hf, dictLookup, alistFind]
    | pyInt n => simp [bridge_handler_wrapper, hf, dictLookup, alistFind]
    | pyStr s => simp [bridge_handler_wrapper, hf, dictLookup, alistFind]
    | pyList xs => simp [bridge_handler_wrapper, hf, dictLookup, alistFind]
  · intro entries hf hs
    refine ⟨by simp [bridge_handler_wrapper, hf, hs, dictLookup, alistFind_set_self], ?_⟩
    intro k hk
    simp [bridge_handler_wrapper, hf, hs, dictLookup, alistFind_set_ne _ _ _ _ hk]

theorem claim_C5_witness :
    dictLookup (bridge_handler_wrapper "/Tools" "3.9" "/e" "f"
      (fun _ => Except.ok (PyVal.pyDict [("result", PyVal.pyInt 4)])) PyVal.pyNone)
      "success" = some (PyVal.pyBool true) :=
  ((claim_C5 "/Tools" "3.9" "/e" "f"
    (fun _ => Except.ok (PyVal.pyDict [("result", PyVal.pyInt 4)])) PyVal.pyNone).2.2
    [("result", PyVal.pyInt 4)] rfl (by decide)).1

/-- The discovery fold equals running the concatenated registration
events of all imported modules, in import order, over the start state. -/
theorem discover_foldl_eq_events (mods : String → ToolModule) (files : List String)
    (r : Registry) :
    files.foldl (fun acc f => importModule acc (mods (moduleName f))) r =
      (files.foldr (fun f acc => (mods (moduleName f)).events ++ acc) []).foldl
        applyEvent r := by
  induction files generalizing r with
  | nil => rfl
  | cons f fs ih =>
    simp only [List.foldl_cons, List.foldr_cons, List.foldl_append]
    rw [ih]
    rfl

/-- Claim C2: `discover_tools` empties all four registries before it
imports anything, so its result is independent of the incoming state and
equals exactly the fold of that call's registration events over the empty
registries; repeating the call changes nothing. -/
theorem claim_C2 (listing : List String) (mods : String → ToolModule)
    (reg reg2 : Registry) :
    discover_tools listing mods reg = discover_tools listing mods reg2 ∧
    (discover_tools listing mods reg).1
      = (eventsOf listing mods).foldl applyEvent emptyRegistry ∧
    discover_tools listing mods ((discover_tools listing mods reg).1)
      = discover_tools listing mods reg := by
  refine ⟨rfl, ?_, rfl⟩
  simp [discover_tools, eventsOf, discover_foldl_eq_events]

/-- Claim C7: `discover_tools` selects exactly the `.py` files other than
`__init__.py` and `tool_registry.py`; an import failure does not abort
discovery (the result depends only on the registration events that
executed, never on whether an import raised afterwards); the result dict
has the keys `rhino`, `grasshopper`, `custom`. -/
theorem claim_C7 (listing : List String) (mods mods' : String → ToolModule)
    (reg : Registry) (f : String)
    (hev : ∀ n, (mods n).events = (mods' n).events) :
    (f ∈ discoveredFiles listing ↔
      f ∈ listing ∧ pyEndsWith f ".py" = true ∧ f ≠ "__init__.py" ∧
        f ≠ "tool_registry.py") ∧
    discover_tools listing mods reg = discover_tools listing mods' reg ∧
    (discover_tools listing mods reg).2.map Prod.fst
      = ["rhino", "grasshopper", "custom"] := by
  refine ⟨?_, ?_, rfl⟩
  · simp [discoveredFiles, List.mem_filter, and_assoc]
  · have hfold : ∀ (files : List String) (r : Registry),
        files.foldl (fun acc g => importModule acc (mods (moduleName g))) r
          = files.foldl (fun acc g => importModule acc (mods' (moduleName g))) r := by
      intro files
      induction files with
      | nil => intro r; rfl
      | cons g gs ih => intro r; simp [importModule, hev, ih]
    simp [discover_tools, hfold]

theorem claim_C7_witness :
    (discover_tools ["gh_tools.py", "tool_registry.py"]
      (fun _ => { events := [], importOk := false }) emptyRegistry).2.map Prod.fst
      = ["rhino", "grasshopper", "custom"] :=
  (claim_C7 ["gh_tools.py", "tool_registry.py"]
    (fun _ => { events := [], importOk := false })
    (fun _ => { events := [], importOk := true }) emptyRegistry "gh_tools.py"
    (fun _ => rfl)).2.2

/-- Claim C3: for a POST whose body parses as JSON (the empty dict when
`Content-Length` is 0), a registered path means exactly one invocation of
that handler with the parsed body and a reply carrying the handler's
return value; an unregistered path means a 404 reply whose body has
`success`: false, `error_type`: `EndpointNotFound` and the sorted list of
registered endpoints. -/
theorem claim_C3 (handlers : List (String × HandlerFn)) (rawPath : String)
    (contentLength : Nat) (parsedBody : Except String PyVal) (requestData : PyVal)
    (hbody : (if contentLength > 0 then parsedBody else Except.ok (PyVal.pyDict []))
      = Except.ok requestData) :
    (contentLength = 0 → requestData = PyVal.pyDict []) ∧
    (∀ hf, alistFind handlers (urlparsePath rawPath) = some hf →
      (do_POST handlers rawPath contentLength parsedBody).handlerCalls
        = [(urlparsePath rawPath, requestData)] ∧
      ∀ r, hf requestData = Except.ok r →
        (do_POST handlers rawPath contentLength parsedBody).response
          = { statusCode := 200, body := r }) ∧
    (alistFind handlers (urlparsePath rawPath) = none →
      (do_POST handlers rawPath contentLength parsedBody).response.statusCode = 404 ∧
      dictLookup (do_POST handlers rawPath contentLength parsedBody).response.body
        "success" = some (PyVal.pyBool false) ∧
      dictLookup (do_POST handlers rawPath contentLength parsedBody).response.body
        "error_type" = some (PyVal.pyStr "EndpointNotFound") ∧
      dictLookup (do_POST handlers rawPath contentLength parsedBody).response.body
        "available_endpoints"
        = some (PyVal.pyList ((pySorted (handlers.map Prod.fst)).map PyVal.pyStr))) := by
  refine ⟨?_, ?_, ?_⟩
  · intro h0
    subst h0
    simp at hbody
    exact hbody.symm
  · intro hf hfind
    constructor
    · cases hr : hf requestData <;> simp [do_POST, hbody, hfind, hr]
    · intro r hr
      simp [do_POST, hbody, hfind, hr]
  · intro hfind
    refine ⟨?_, ?_, ?_, ?_⟩ <;>
      simp [do_POST, hbody, hfind, endpointNotFoundBody, dictLookup, alistFind]

theorem claim_C3_witness :
    (do_POST [("/ok", fun _ => Except.ok (PyVal.pyInt 7))] "/ok" 5
      (Except.ok (PyVal.pyDict []))).response
      = { statusCode := 200, body := PyVal.pyInt 7 } :=
  ((claim_C3 [("/ok", fun _ => Except.ok (PyVal.pyInt 7))] "/ok" 5
    (Except.ok (PyVal.pyDict [])) (PyVal.pyDict []) rfl).2.1
    (fun _ => Except.ok (PyVal.pyInt 7)) rfl).2 (PyVal.pyInt 7) rfl

/-- Claim C6: a handler registered through `@bridge_handler` never raises,
so dispatching to it through `do_POST` always answers with status 200 and
the wrapper's body (never the 500 handler-error branch); a handler-side
exception shows up as a `success`: false body under status 200. -/
theorem claim_C6 (handlers : List (String × HandlerFn)) (rawPath : String)
    (contentLength : Nat) (parsedBody : Except String PyVal) (requestData : PyVal)
    (toolsDir pythonVersion ep fn : String) (func : PyVal → Except PyExc PyVal)
    (hbody : (if contentLength > 0 then parsedBody else Except.ok (PyVal.pyDict []))
      = Except.ok requestData)
    (hfind : alistFind handlers (urlparsePath rawPath)
      = some (bridge_handler toolsDir pythonVersion ep fn func)) :
    (do_POST handlers rawPath contentLength parsedBody).response.statusCode = 200 ∧
    (do_POST handlers rawPath contentLength parsedBody).response.body
      = bridge_handler_wrapper toolsDir pythonVersion ep fn func requestData ∧
    (do_POST handlers rawPath contentLength parsedBody).response.statusCode ≠ 500 ∧
    (∀ e, func requestData = Except.error e →
      dictLookup (do_POST handlers rawPath contentLength parsedBody).response.body
        "success" = some (PyVal.pyBool false)) := by
  have hresp : (do_POST handlers rawPath contentLength parsedBody).response
      = { statusCode := 200,
          body := bridge_handler_wrapper toolsDir pythonVersion ep fn func requestData } := by
    simp [do_POST, hbody, hfind, bridge_handler]
  refine ⟨by rw [hresp], by rw [hresp], by rw [hresp]; simp, ?_⟩
  intro e he
  rw [hresp]
  simp [bridge_handler_wrapper, he, dictLookup, alistFind]

theorem claim_C6_witness :
    (do_POST [("/boom", bridge_handler "/Tools" "3.9" "/boom" "handle_boom"
      (fun _ => Except.error ⟨"RuntimeError", "exploded", "tb"⟩))] "/boom" 0
      (Except.error "ignored")).response.statusCode = 200 :=
  (claim_C6 [("/boom", bridge_handler "/Tools" "3.9" "/boom" "handle_boom"
    (fun _ => Except.error ⟨"RuntimeError", "exploded", "tb"⟩))] "/boom" 0
    (Except.error "ignored") (PyVal.pyDict []) "/Tools" "3.9" "/boom" "handle_boom"
    (fun _ => Except.error ⟨"RuntimeError", "exploded", "tb"⟩) rfl rfl).1

/-- Claim C9: GET requests are answered with content only for `/status`
and `/info`; every other GET path gets a 404 error response; `do_GET`
never invokes a dynamic handler. -/
theorem claim_C9 (handlers : List (String × HandlerFn))
    (rhinoAvailable grasshopperAvailable : Bool) (path : String) :
    (do_GET handlers rhinoAvailable grasshopperAvailable path).handlerCalls = [] ∧
    (path = "/status" →
      (do_GET handlers rhinoAvailable grasshopperAvailable path).response
        = { statusCode := 200, body := statusBody rhinoAvailable grasshopperAvailable }) ∧
    (path = "/info" →
      (do_GET handlers rhinoAvailable grasshopperAvailable path).response
        = { statusCode := 200, body := infoBody handlers }) ∧
    (path ≠ "/status" → path ≠ "/info" →
      (do_GET handlers rhinoAvailable grasshopperAvailable path).response.statusCode = 404 ∧
      dictLookup (do_GET handlers rhinoAvailable grasshopperAvailable path).response.body
        "success" = some (PyVal.pyBool false)) := by
  refine ⟨?_, ?_, ?_, ?_⟩
  · simp only [do_GET]
    split
    · rfl
    · split <;> rfl
  · intro h1
    subst h1
    simp [do_GET]
  · intro h2
    subst h2
    simp [do_GET]
  · intro h1 h2
    simp [do_GET, h1, h2, plainErrorBody, dictLookup, alistFind]

theorem claim_C9_witness :
    ((do_GET [] true false "/draw_line").response.statusCode = 404 ∧
      dictLookup (do_GET [] true false "/draw_line").response.body "success"
        = some (PyVal.pyBool false)) :=
  (claim_C9 [] true false "/draw_line").2.2.2 (by decide) (by decide)

/-- Claim C4: every failure mode of `call_bridge_api` (connection error,
timeout, HTTP error status, other request exception, unparseable JSON
body) returns a dict with `success`: false, an `error` message, an
`error_type` naming the failure kind and the requested `endpoint`; on
success the parsed JSON response is returned unchanged. -/
theorem claim_C4 (bridgeURL endpoint : String) (data : Option PyVal)
    (outcome : HttpOutcome) :
    (∀ m, outcome = HttpOutcome.connectionError m →
      errorDictShape (call_bridge_api bridgeURL endpoint data outcome).returnValue
        "ConnectionError" endpoint) ∧
    (∀ m, outcome = HttpOutcome.timeoutError m →
      errorDictShape (call_bridge_api bridgeURL endpoint data outcome).returnValue
        "Timeout" endpoint) ∧
    (∀ m, outcome = HttpOutcome.requestError m →
      errorDictShape (call_bridge_api bridgeURL endpoint data outcome).returnValue
        "RequestException" endpoint) ∧
    (∀ status text contentType jsonParse,
      outcome = HttpOutcome.gotResponse status text contentType jsonParse →
      (400 ≤ status ∧ status < 600 →
        errorDictShape (call_bridge_api bridgeURL endpoint data outcome).returnValue
          "HTTPError" endpoint) ∧
      (¬(400 ≤ status ∧ status < 600) →
        (∀ e, jsonParse = Except.error e →
          errorDictShape (call_bridge_api bridgeURL endpoint data outcome).returnValue
            "JSONDecodeError" endpoint) ∧
        (∀ v, jsonParse = Except.ok v →
          (call_bridge_api bridgeURL endpoint data outcome).returnValue = v))) := by
  refine ⟨?_, ?_, ?_, ?_⟩
  · rintro m rfl
    simp [call_bridge_api, errorDictShape, dictLookup, alistFind]
  · rintro m rfl
    simp [call_bridge_api, errorDictShape, dictLookup, alistFind]
  · rintro m rfl
    simp [call_bridge_api, errorDictShape, dictLookup, alistFind]
  · rintro status text contentType jsonParse rfl
    constructor
    · intro hs
      simp [call_bridge_api, hs, errorDictShape, dictLookup, alistFind]
    · intro hs
      constructor
      · rintro e rfl
        simp [call_bridge_api, hs, errorDictShape, dictLookup, alistFind]
      · rintro v rfl
        simp [call_bridge_api, hs]

theorem claim_C4_witness :
    errorDictShape (call_bridge_api "http://localhost:8080" "/draw_line"
      (some (PyVal.pyDict [])) (HttpOutcome.connectionError "refused")).returnValue
      "ConnectionError" "/draw_line" :=
  (claim_C4 "http://localhost:8080" "/draw_line" (some (PyVal.pyDict []))
    (HttpOutcome.connectionError "refused")).1 "refused" rfl

/-- Claim C8: `call_bridge_api` with non-`None` data performs exactly one
HTTP POST to `BRIDGE_URL + endpoint` with the data as JSON body, a GET is
issued only when data is `None`, and the registered tool
`list_eml_parameters` posts the empty dict. -/
theorem claim_C8 (bridgeURL endpoint : String) (d : PyVal) (outcome : HttpOutcome) :
    (call_bridge_api bridgeURL endpoint (some d) outcome).requests
      = [HttpRequest.postReq (bridgeURL ++ endpoint) d] ∧
    (call_bridge_api bridgeURL endpoint none outcome).requests
      = [HttpRequest.getReq (bridgeURL ++ endpoint)] ∧
    (list_eml_parameters bridgeURL outcome).requests
      = [HttpRequest.postReq (bridgeURL ++ "/list_eml_parameters") (PyVal.pyDict [])] := by
  refine ⟨?_, ?_, ?_⟩ <;>
  · cases outcome with
    | connectionError m => rfl
    | timeoutError m => rfl
    | requestError m => rfl
    | gotResponse status text contentType jsonParse =>
      simp only [call_bridge_api, list_eml_parameters]
      split
      · rfl
      · cases jsonParse <;> rfl

/-- Claim C10: `get_bridge_handlers` returns a copy: the returned dict is
a different object with the same entries, mutating it (adding, removing or
replacing entries) leaves the internal `_bridge_handlers` dict unchanged,
and a later `get_bridge_handlers` still sees the original entries. -/
theorem claim_C10 (h : DictHeap) (internalRef : Nat) (hlt : internalRef < h.nextRef) :
    (get_bridge_handlers internalRef h).1 ≠ internalRef ∧
    readRef (get_bridge_handlers internalRef h).2 internalRef = readRef h internalRef ∧
    readRef (get_bridge_handlers internalRef h).2 (get_bridge_handlers internalRef h).1
      = readRef h internalRef ∧
    (∀ v, readRef (writeRef (get_bridge_handlers internalRef h).2
        (get_bridge_handlers internalRef h).1 v) internalRef = readRef h internalRef) ∧
    (∀ v,
      readRef (get_bridge_handlers internalRef
          (writeRef (get_bridge_handlers internalRef h).2
            (get_bridge_handlers internalRef h).1 v)).2
        (get_bridge_handlers internalRef
          (writeRef (get_bridge_handlers internalRef h).2
            (get_bridge_handlers internalRef h).1 v)).1
        = readRef h internalRef) := by
  have hne : ¬ h.nextRef = internalRef := fun hh => absurd (hh ▸ hlt) (lt_irrefl _)
  refine ⟨fun hh => hne hh, ?_, ?_, ?_, ?_⟩
  · simp [get_bridge_handlers, allocRef, readRef, alistFind, hne]
  · simp [get_bridge_handlers, allocRef, readRef, alistFind, hne]
  · intro v
    simp [get_bridge_handlers, allocRef, writeRef, readRef, alistFind, alistSet, hne]
  · intro v
    simp [get_bridge_handlers, allocRef, writeRef, readRef, alistFind, alistSet, hne]

theorem claim_C10_witness :
    readRef (writeRef (get_bridge_handlers 0
        (⟨[(0, [("/draw_line", 1)])], 1⟩ : DictHeap)).2
      (get_bridge_handlers 0 (⟨[(0, [("/draw_line", 1)])], 1⟩ : DictHeap)).1 []) 0
      = readRef (⟨[(0, [("/draw_line", 1)])], 1⟩ : DictHeap) 0 :=
  (claim_C10 (⟨[(0, [("/draw_line", 1)])], 1⟩ : DictHeap) 0 (by decide)).2.2.2.1 []

end AagMcp
